import Mathlib

/-!
Verification of the MEV-Boost account SDK (`src/mevboostAccount.ts`).

The single source file defines the class `MEVBoostAccount`, a user-operation
builder for an account-abstraction protocol.  We shallowly embed its state and
operations: byte strings are Lean `String`s (the hex string "0x" is the empty
byte string), JavaScript numbers used as nonces, block numbers and
milliseconds are `Nat` (with `Int` where a subtraction may go below zero),
fallible paths return `Except`, and every network interaction is an explicit
environment record supplied to the embedded function.
-/

/-- The user-operation record assembled by the builder (the base SDK's
operation schema: sender, nonce, init code, call data, gas fields,
signature). -/
structure UserOp where
  sender : String
  nonce : Nat
  initCode : String
  callData : String
  callGasLimit : Nat
  verificationGasLimit : Nat
  preVerificationGas : Nat
  maxFeePerGas : Nat
  maxPriorityFeePerGas : Nat
  paymasterAndData : String
  signature : String
deriving DecidableEq, Repr

/-- Modelled from the spec: the base SDK's default operation record used to
seed the operation-in-progress (all byte fields empty, all numbers zero). -/
def defaultUserOp : UserOp :=
  { sender := "0x0000000000000000000000000000000000000000"
    nonce := 0
    initCode := "0x"
    callData := "0x"
    callGasLimit := 0
    verificationGasLimit := 0
    preVerificationGas := 0
    maxFeePerGas := 0
    maxPriorityFeePerGas := 0
    paymasterAndData := "0x"
    signature := "0x" }

/-- The MEV configuration structure carried by boosted executions; its
internal shape is opaque to this component and passed through verbatim to
encoding, so we model it by its encoded form. -/
structure MEVConfig where
  raw : String
deriving DecidableEq, Repr

/-- A JavaScript exception as observed by `init`'s catch block: either the
`Error("getSenderAddress: unexpected result")` thrown after an unexpected
success, or a failure of the simulated call carrying an optional decoded
`errorArgs.sender` field. -/
inductive JsError where
  | unexpectedResult : JsError
  | callFailed (errSender : Option String) : JsError
deriving DecidableEq, Repr

/-- `error?.errorArgs?.sender` of line 95: the thrown plain `Error` carries no
`errorArgs`, a call failure carries the decoded field when present. -/
def errorArgsSender : JsError → Option String
  | JsError.unexpectedResult => none
  | JsError.callFailed s => s

/-- Modelled from the spec: the ABI encoding collaborator
(`factory.interface.encodeFunctionData("createAccount", [owner, paymaster,
salt])`).  The encoding is opaque; we keep it symbolic and injective in its
arguments. -/
def encodeCreateAccount (owner paymaster : String) (salt : Nat) : String :=
  "createAccount(" ++ owner ++ "," ++ paymaster ++ "," ++ toString salt ++ ")"

/-- `ethers.utils.hexConcat`: concatenation of byte strings. -/
def hexConcat (xs : List String) : String :=
  xs.foldl (fun a b => a ++ b) ""

/-- The tags of the middleware registered by `init`, in the order the source
can register them. -/
inductive MiddlewareTag where
  | resolveAccount : MiddlewareTag
  | getGasPrice : MiddlewareTag
  | paymasterMiddleware : MiddlewareTag
  | estimateUserOperationGas : MiddlewareTag
  | eoaSignature : MiddlewareTag
deriving DecidableEq, Repr

/-- The mutable state of a `MEVBoostAccount` instance relevant to the claims:
the computed init code, the resolved proxy address, the registered middleware
list and the operation-in-progress. -/
structure BuilderState where
  initCode : String
  proxyAddress : String
  middlewares : List MiddlewareTag
  op : UserOp
deriving DecidableEq, Repr

/-- The environment of one `MEVBoostAccount.init` run: the constructor inputs
that feed the init-code computation, the outcome of the simulated
`entryPoint.callStatic.getSenderAddress` call (`none` means the call
succeeded), the placeholder signature produced by the signer, and whether the
caller supplied `opts.paymasterMiddleware`. -/
structure InitEnv where
  signerAddress : String
  factoryAddress : String
  paymasterAddress : String
  callOutcome : Option JsError
  placeholderSig : String
  hasPaymasterMw : Bool

/-- Lines 82-89: `initCode = hexConcat([factory.address,
encodeFunctionData("createAccount", [signerAddress, paymaster.address, 0])])`.
The salt is the fixed constant zero. -/
def mkInitCode (env : InitEnv) : String :=
  hexConcat [env.factoryAddress,
    encodeCreateAccount env.signerAddress env.paymasterAddress 0]

/-- Lines 79-121, `MEVBoostAccount.init`.  The try block computes the init
code, issues the simulated `getSenderAddress` call and, when that call
returns normally, throws `Error("getSenderAddress: unexpected result")`.  The
catch block reads `error?.errorArgs?.sender`; a missing or falsy (empty)
field rethrows the caught error, otherwise the recovered address is bound as
the proxy address.  Lines 104-120 then seed the defaults (sender = proxy
address, placeholder signature) and register the middleware chain. -/
def init (env : InitEnv) : Except JsError BuilderState :=
  let code := mkInitCode env
  let caught : JsError :=
    match env.callOutcome with
    | none => JsError.unexpectedResult
    | some e => e
  match errorArgsSender caught with
  | none => Except.error caught
  | some addr =>
    if addr = "" then Except.error caught
    else
      Except.ok
        { initCode := code
          proxyAddress := addr
          middlewares :=
            [MiddlewareTag.resolveAccount, MiddlewareTag.getGasPrice] ++
              (if env.hasPaymasterMw then [MiddlewareTag.paymasterMiddleware]
               else [MiddlewareTag.estimateUserOperationGas]) ++
              [MiddlewareTag.eoaSignature]
          op := { defaultUserOp with sender := addr,
                                     signature := env.placeholderSig } }

/-- Lines 69-72, the `resolveAccount` middleware body: write the nonce
fetched from `entryPoint.getNonce(sender, 0)` into the operation and select
the init code — the instance's computed init code when the nonce equals
zero, the empty byte string otherwise. -/
def resolveAccount (selfInitCode : String) (fetchedNonce : Nat) (op : UserOp) :
    UserOp :=
  { op with nonce := fetchedNonce
            initCode := if fetchedNonce = 0 then selfInitCode else "0x" }

/-- The values the external middleware read from the network or the signer
during one pipeline run: the nonce answered by the entry point, the fee
fields, the gas estimates, the final signature, and the caller-supplied
paymaster middleware as an opaque transformation. -/
structure MwEnv where
  fetchedNonce : Nat
  maxFeePerGas : Nat
  maxPriorityFeePerGas : Nat
  callGasLimit : Nat
  verificationGasLimit : Nat
  preVerificationGas : Nat
  finalSignature : String
  paymasterFn : UserOp → UserOp

/-- One middleware step over the operation-in-progress.  `resolveAccount` is
the source's own middleware; the others are external collaborators modelled
from the spec: gas-price fills the fee fields, gas estimation fills gas
limits, the paymaster middleware is the caller's opaque transformation, and
the signature middleware replaces the placeholder signature. -/
def runMw (selfInitCode : String) (env : MwEnv) :
    MiddlewareTag → UserOp → UserOp
  | MiddlewareTag.resolveAccount, op =>
      resolveAccount selfInitCode env.fetchedNonce op
  | MiddlewareTag.getGasPrice, op =>
      { op with maxFeePerGas := env.maxFeePerGas
                maxPriorityFeePerGas := env.maxPriorityFeePerGas }
  | MiddlewareTag.paymasterMiddleware, op => env.paymasterFn op
  | MiddlewareTag.estimateUserOperationGas, op =>
      { op with callGasLimit := env.callGasLimit
                verificationGasLimit := env.verificationGasLimit
                preVerificationGas := env.preVerificationGas }
  | MiddlewareTag.eoaSignature, op =>
      { op with signature := env.finalSignature }

/-- The base builder's finalization: fold the registered middleware, in
registration order, over the operation-in-progress.  Only the operation is
written; the instance's other fields are read-only here. -/
def runPipeline (b : BuilderState) (env : MwEnv) : BuilderState :=
  { b with op := b.middlewares.foldl (fun op t => runMw b.initCode env t op) b.op }

/-- Modelled from the spec: the base builder's `setCallData` — sets the
call-data field of the operation-in-progress only, runs no middleware. -/
def setCallData (b : BuilderState) (cd : String) : BuilderState :=
  { b with op := { b.op with callData := cd } }

/-- Modelled from the spec: `proxy.interface.encodeFunctionData("execute",
[dest, value, data])`, kept symbolic. -/
def encodeExecute (dest : String) (value : Nat) (data : String) : String :=
  "execute(" ++ dest ++ "," ++ toString value ++ "," ++ data ++ ")"

/-- The error the encoding collaborator surfaces on a caller error. -/
inductive EncodeError where
  | lengthMismatch : EncodeError
deriving DecidableEq, Repr

/-- Modelled from the spec: `encodeFunctionData("executeBatch", [dest, value,
data])` over three parallel arrays; a length mismatch among them is a caller
error surfaced by the encoder before any call data is produced. -/
def encodeExecuteBatch (dest : List String) (value : List Nat)
    (data : List String) : Except EncodeError String :=
  if dest.length = value.length ∧ value.length = data.length then
    Except.ok ("executeBatch(" ++ String.intercalate "," dest ++ ";" ++
      String.intercalate "," (value.map toString) ++ ";" ++
      String.intercalate "," data ++ ")")
  else Except.error EncodeError.lengthMismatch

/-- Modelled from the spec: `encodeFunctionData("boostExecute", [config, dest,
value, data])`, the config passed through verbatim. -/
def encodeBoostExecute (config : MEVConfig) (dest : String) (value : Nat)
    (data : String) : String :=
  "boostExecute(" ++ config.raw ++ "," ++ dest ++ "," ++ toString value ++ "," ++
    data ++ ")"

/-- Modelled from the spec: `encodeFunctionData("boostExecuteBatch", [config,
dest, value, data])`; identical array shape to `executeBatch`, so the same
length-mismatch caller error applies. -/
def encodeBoostExecuteBatch (config : MEVConfig) (dest : List String)
    (value : List Nat) (data : List String) : Except EncodeError String :=
  if dest.length = value.length ∧ value.length = data.length then
    Except.ok ("boostExecuteBatch(" ++ config.raw ++ ";" ++
      String.intercalate "," dest ++ ";" ++
      String.intercalate "," (value.map toString) ++ ";" ++
      String.intercalate "," data ++ ")")
  else Except.error EncodeError.lengthMismatch

/-- Lines 123-127, `execute`: encode a single-call invocation and set the
call data. -/
def execute (b : BuilderState) (dest : String) (value : Nat) (data : String) :
    BuilderState :=
  setCallData b (encodeExecute dest value data)

/-- Lines 129-137, `executeBatch`: encode a batch invocation and set the call
data; an encoder error propagates before any state is written. -/
def executeBatch (b : BuilderState) (dest : List String) (value : List Nat)
    (data : List String) : Except EncodeError BuilderState :=
  match encodeExecuteBatch dest value data with
  | Except.error e => Except.error e
  | Except.ok cd => Except.ok (setCallData b cd)

/-- Lines 139-153, `boostExecute`. -/
def boostExecute (b : BuilderState) (config : MEVConfig) (dest : String)
    (value : Nat) (data : String) : BuilderState :=
  setCallData b (encodeBoostExecute config dest value data)

/-- Lines 155-169, `boostExecuteBatch`. -/
def boostExecuteBatch (b : BuilderState) (config : MEVConfig)
    (dest : List String) (value : List Nat) (data : List String) :
    Except EncodeError BuilderState :=
  match encodeBoostExecuteBatch config dest value data with
  | Except.error e => Except.error e
  | Except.ok cd => Except.ok (setCallData b cd)

/-- A settlement event of the paymaster's `SettleUserOp` log. -/
structure SettleEvent where
  userOpHash : String
  payload : String
deriving DecidableEq, Repr

/-- One `queryFilter` call issued by `boostWait`, recorded with its
arguments: the operation hash the filter is built from and the starting
block of the scan. -/
structure QueryCall where
  topicHash : String
  fromBlock : Int
deriving DecidableEq, Repr

/-- The environment of one `boostWait` call: `now0` is `Date.now()` at the
`end =` line, `now k` is `Date.now()` at the k-th loop check, `blockNumber`
is the chain head captured by `getBlock("latest")`, and `query k` is the
event list the node answers to the k-th log query. -/
structure WaitEnv where
  now0 : Nat
  now : Nat → Nat
  blockNumber : Nat
  query : Nat → List SettleEvent

/-- The observable outcome of one `boostWait` run: the returned value
(`none` only when the model's fuel ran out before the loop finished,
`some none` for the function's `null` return, `some (some e)` for a found
event), the queries issued and the sleeps performed. -/
structure WaitRun where
  result : Option (Option SettleEvent)
  queries : List QueryCall
  sleeps : List Nat
deriving DecidableEq, Repr

/-- Line 176: `end = deadlineMs || Date.now() + 30000`.  A missing or falsy
(zero) deadline selects the default of 30 seconds past the current time. -/
def effectiveDeadline (now0 : Nat) : Option Nat → Nat
  | none => now0 + 30000
  | some d => if d = 0 then now0 + 30000 else d

/-- Line 181: the starting block of every scan, `Math.max(0, block.number -
100)`. -/
def scanStart (blockNumber : Nat) : Int :=
  max 0 ((blockNumber : Int) - 100)

/-- Lines 178-189, the polling loop of `boostWait`: while `Date.now()` is
before the deadline, query the settlement log filtered by the operation hash
from `Math.max(0, block.number - 100)`; return the first event of a
non-empty answer, otherwise sleep for the poll interval and retry; when the
deadline has elapsed return `null`.  `fuel` bounds the number of loop
iterations the model unfolds; `k` counts the checks already made. -/
def boostWaitGo (env : WaitEnv) (hash : String) (deadline interval : Nat) :
    Nat → Nat → WaitRun
  | 0, _ => ⟨none, [], []⟩
  | fuel + 1, k =>
    if env.now k < deadline then
      let q : QueryCall := ⟨hash, scanStart env.blockNumber⟩
      match env.query k with
      | e :: _ => ⟨some (some e), [q], []⟩
      | [] =>
        let r := boostWaitGo env hash deadline interval fuel (k + 1)
        ⟨r.result, q :: r.queries, interval :: r.sleeps⟩
    else ⟨some none, [], []⟩

/-- Lines 171-190, `boostWait(userOpHash, deadlineMs?, waitIntervalMs =
5000)`: resolve the effective deadline, capture the chain head once, run the
polling loop. -/
def boostWait (env : WaitEnv) (hash : String) (deadlineMs : Option Nat)
    (fuel : Nat) (waitIntervalMs : Nat := 5000) : WaitRun :=
  boostWaitGo env hash (effectiveDeadline env.now0 deadlineMs) waitIntervalMs
    fuel 0

/-- `boostWait` as a method of the instance: it reads the paymaster
reference but assigns no instance field, so the builder state it returns is
the one it received. -/
def boostWaitM (b : BuilderState) (env : WaitEnv) (hash : String)
    (deadlineMs : Option Nat) (fuel : Nat) (waitIntervalMs : Nat := 5000) :
    WaitRun × BuilderState :=
  (boostWait env hash deadlineMs fuel waitIntervalMs, b)

/-! ### Concrete environments used by witnesses and counterexamples -/

/-- The all-zero hex address. -/
def zeroAddress : String := "0x0000000000000000000000000000000000000000"

/-- An `init` environment whose simulated call succeeded. -/
def envCallSucceeded : InitEnv :=
  { signerAddress := "0xa", factoryAddress := "0xf", paymasterAddress := "0xp"
    callOutcome := none, placeholderSig := "0xsig", hasPaymasterMw := false }

/-- An `init` environment whose simulated call failed without a decoded
sender field. -/
def envNoSender : InitEnv :=
  { envCallSucceeded with callOutcome := some (JsError.callFailed none) }

/-- An `init` environment whose simulated call failed with an empty decoded
sender field. -/
def envEmptySender : InitEnv :=
  { envCallSucceeded with callOutcome := some (JsError.callFailed (some "")) }

/-- An `init` environment whose simulated call failed carrying the sender
address `"0xs"`. -/
def envOk : InitEnv :=
  { envCallSucceeded with callOutcome := some (JsError.callFailed (some "0xs")) }

/-- An `init` environment whose simulated call failed carrying the all-zero
sender address. -/
def envZeroAddr : InitEnv :=
  { envCallSucceeded with
      callOutcome := some (JsError.callFailed (some zeroAddress)) }

/-- The builder state `init envOk` produces. -/
def stateOk : BuilderState :=
  { initCode := "0xfcreateAccount(0xa,0xp,0)"
    proxyAddress := "0xs"
    middlewares := [MiddlewareTag.resolveAccount, MiddlewareTag.getGasPrice,
      MiddlewareTag.estimateUserOperationGas, MiddlewareTag.eoaSignature]
    op := { defaultUserOp with sender := "0xs", signature := "0xsig" } }

/-- The frame of a call-data setter: every component of the builder state
other than the operation's call-data field agrees. -/
def callDataFrame (b b2 : BuilderState) : Prop :=
  b2.initCode = b.initCode ∧ b2.proxyAddress = b.proxyAddress ∧
  b2.middlewares = b.middlewares ∧
  b2.op.sender = b.op.sender ∧ b2.op.nonce = b.op.nonce ∧
  b2.op.initCode = b.op.initCode ∧
  b2.op.callGasLimit = b.op.callGasLimit ∧
  b2.op.verificationGasLimit = b.op.verificationGasLimit ∧
  b2.op.preVerificationGas = b.op.preVerificationGas ∧
  b2.op.maxFeePerGas = b.op.maxFeePerGas ∧
  b2.op.maxPriorityFeePerGas = b.op.maxPriorityFeePerGas ∧
  b2.op.paymasterAndData = b.op.paymasterAndData ∧
  b2.op.signature = b.op.signature

/-- The write-once core of the builder: the computed init code and the
resolved proxy address agree. -/
def coreFrame (b b2 : BuilderState) : Prop :=
  b2.initCode = b.initCode ∧ b2.proxyAddress = b.proxyAddress

/-- The builder state `executeBatch stateOk ["0xa"] [1] ["0xd"]`
produces. -/
def stateOkBatch : BuilderState :=
  { stateOk with op := { stateOk.op with
      callData := "executeBatch(0xa;1;0xd)" } }

/-- The builder state `boostExecuteBatch stateOk ⟨"cfg"⟩ ["0xa"] [1]
["0xd"]` produces. -/
def stateOkBoostBatch : BuilderState :=
  { stateOk with op := { stateOk.op with
      callData := "boostExecuteBatch(cfg;0xa;1;0xd)" } }

/-- A concrete settlement event. -/
def evW : SettleEvent := { userOpHash := "0xh", payload := "0xdata" }

/-- A concrete wait environment: the clock stands at 1000 ms, the chain head
is block 5, the first log query answers `[evW]` and every later one answers
nothing. -/
def envW : WaitEnv :=
  { now0 := 1000, now := fun _ => 1000, blockNumber := 5
    query := fun k => if k = 0 then [evW] else [] }

/-- A concrete middleware environment. -/
def mwEnvW : MwEnv :=
  { fetchedNonce := 0, maxFeePerGas := 7, maxPriorityFeePerGas := 1
    callGasLimit := 2, verificationGasLimit := 3, preVerificationGas := 4
    finalSignature := "0xfinal", paymasterFn := id }


/-! ### Helper lemmas -/

/-- The init code computed at initialization is never the empty byte string:
its length is that of the factory address plus the encoded creation call,
which is at least 17 characters. -/
theorem mkInitCode_ne_empty (env : InitEnv) : mkInitCode env ≠ "0x" := by
  intro h
  have hlen := congrArg String.length h
  have h1 : ("" : String).length = 0 := rfl
  have h2 : ("createAccount(" : String).length = 14 := rfl
  have h3 : ("," : String).length = 1 := rfl
  have h4 : (")" : String).length = 1 := rfl
  have h5 : ("0x" : String).length = 2 := rfl
  simp only [mkInitCode, hexConcat, encodeCreateAccount, List.foldl,
    String.length_append, h1, h2, h3, h4, h5] at hlen
  omega

/-- Any successful `init` binds a non-empty proxy address. -/
theorem init_ok_proxy_ne_empty (env : InitEnv) (b : BuilderState)
    (hb : init env = Except.ok b) : b.proxyAddress ≠ "" := by
  rcases env with ⟨sa, fa, pa, co, ps, hm⟩
  cases co with
  | none => simp [init, errorArgsSender] at hb
  | some e =>
    cases e with
    | unexpectedResult => simp [init, errorArgsSender] at hb
    | callFailed s =>
      cases s with
      | none => simp [init, errorArgsSender] at hb
      | some a =>
        by_cases ha : a = ""
        · simp [init, errorArgsSender, ha] at hb
        · simp [init, errorArgsSender, ha] at hb
          cases hb
          simpa using ha

/-- Any successful `init` stores the computed init code. -/
theorem init_ok_initCode (env : InitEnv) (b : BuilderState)
    (hb : init env = Except.ok b) : b.initCode = mkInitCode env := by
  rcases env with ⟨sa, fa, pa, co, ps, hm⟩
  cases co with
  | none => simp [init, errorArgsSender] at hb
  | some e =>
    cases e with
    | unexpectedResult => simp [init, errorArgsSender] at hb
    | callFailed s =>
      cases s with
      | none => simp [init, errorArgsSender] at hb
      | some a =>
        by_cases ha : a = ""
        · simp [init, errorArgsSender, ha] at hb
        · simp [init, errorArgsSender, ha] at hb
          cases hb
          rfl

/-- Any successful `init` registers the middleware list of lines 104-120. -/
theorem init_ok_middlewares (env : InitEnv) (b : BuilderState)
    (hb : init env = Except.ok b) :
    b.middlewares =
      [MiddlewareTag.resolveAccount, MiddlewareTag.getGasPrice,
        (if env.hasPaymasterMw then MiddlewareTag.paymasterMiddleware
         else MiddlewareTag.estimateUserOperationGas),
        MiddlewareTag.eoaSignature] := by
  rcases env with ⟨sa, fa, pa, co, ps, hm⟩
  cases co with
  | none => simp [init, errorArgsSender] at hb
  | some e =>
    cases e with
    | unexpectedResult => simp [init, errorArgsSender] at hb
    | callFailed s =>
      cases s with
      | none => simp [init, errorArgsSender] at hb
      | some a =>
        by_cases ha : a = ""
        · simp [init, errorArgsSender, ha] at hb
        · simp [init, errorArgsSender, ha] at hb
          cases hb
          cases hm <;> rfl

/-! ### C1 -/

/-- Counterexample to C1 as stated: the catch block of `init` tests the
recovered field only for JavaScript falsiness (`if (!addr) throw error`), so
a failure whose decoded sender field is the all-zero hex address — a
non-empty, hence truthy, string — completes initialization with the zero
address silently bound as the proxy address. -/
theorem c1_counterexample_zero_address_bound :
    Except.map BuilderState.proxyAddress (init envZeroAddr) =
      Except.ok zeroAddress := rfl

/-- C1 (amended): during initialization the simulated `getSenderAddress`
call is issued and, for every outcome: a successful call aborts
initialization with the hard protocol-violation error; a failure without a
recoverable sender field — absent, or present but empty — propagates the
original failure; otherwise the recovered (necessarily non-empty) address is
bound as the proxy account address.  Initialization never completes with an
empty address silently bound; the all-zero hex address, being a truthy
string, is not rejected. -/
theorem c1_address_resolution_amended (env : InitEnv) :
    (env.callOutcome = none →
      init env = Except.error JsError.unexpectedResult) ∧
    (env.callOutcome = some (JsError.callFailed none) →
      init env = Except.error (JsError.callFailed none)) ∧
    (env.callOutcome = some (JsError.callFailed (some "")) →
      init env = Except.error (JsError.callFailed (some ""))) ∧
    (∀ a : String, a ≠ "" →
      env.callOutcome = some (JsError.callFailed (some a)) →
      Except.map BuilderState.proxyAddress (init env) = Except.ok a) ∧
    (∀ b : BuilderState, init env = Except.ok b → b.proxyAddress ≠ "") := by
  refine ⟨?_, ?_, ?_, ?_, ?_⟩
  · intro h
    simp [init, errorArgsSender, h]
  · intro h
    simp [init, errorArgsSender, h]
  · intro h
    simp [init, errorArgsSender, h]
  · intro a ha h
    simp [init, errorArgsSender, h, ha, Except.map]
  · exact init_ok_proxy_ne_empty env

/-- Witness for C1: the amended theorem applied to the four concrete
environments. -/
theorem c1_address_resolution_amended_witness :
    init envCallSucceeded = Except.error JsError.unexpectedResult ∧
    init envNoSender = Except.error (JsError.callFailed none) ∧
    init envEmptySender = Except.error (JsError.callFailed (some "")) ∧
    Except.map BuilderState.proxyAddress (init envOk) = Except.ok "0xs" ∧
    stateOk.proxyAddress ≠ "" :=
  ⟨(c1_address_resolution_amended envCallSucceeded).1 rfl,
   (c1_address_resolution_amended envNoSender).2.1 rfl,
   (c1_address_resolution_amended envEmptySender).2.2.1 rfl,
   (c1_address_resolution_amended envOk).2.2.2.1 "0xs" (by decide) rfl,
   (c1_address_resolution_amended envOk).2.2.2.2 stateOk rfl⟩

/-! ### C2 -/

/-- C2: the account-resolution middleware writes the fetched nonce into the
operation-in-progress and selects the init code on it — the init code
computed at initialization (which is never the empty byte string) exactly
when the nonce equals zero, the empty byte string `"0x"` for every positive
nonce. -/
theorem c2_resolve_account_init_code (selfInitCode : String) (n : Nat)
    (op : UserOp) (env0 : InitEnv) (b : BuilderState)
    (hb : init env0 = Except.ok b) :
    (resolveAccount selfInitCode n op).nonce = n ∧
    (n = 0 → (resolveAccount selfInitCode n op).initCode = selfInitCode) ∧
    (0 < n → (resolveAccount selfInitCode n op).initCode = "0x") ∧
    b.initCode ≠ "0x" := by
  refine ⟨rfl, ?_, ?_, ?_⟩
  · intro h
    simp [resolveAccount, h]
  · intro h
    simp [resolveAccount, Nat.pos_iff_ne_zero.mp h]
  · rw [init_ok_initCode env0 b hb]
    exact mkInitCode_ne_empty env0

/-- Witness for C2 at nonce zero over the default operation, with the
builder produced by `init envOk`. -/
theorem c2_resolve_account_init_code_witness :
    init envOk = Except.ok stateOk ∧
    ((resolveAccount "0xI" 0 defaultUserOp).nonce = 0 ∧
     (0 = 0 → (resolveAccount "0xI" 0 defaultUserOp).initCode = "0xI") ∧
     (0 < 0 → (resolveAccount "0xI" 0 defaultUserOp).initCode = "0x") ∧
     stateOk.initCode ≠ "0x") :=
  ⟨rfl, c2_resolve_account_init_code "0xI" 0 defaultUserOp envOk stateOk rfl⟩

/-! ### C3 -/

/-- C3: a completed initialization registers exactly four middleware
entries, in the fixed order account-resolution, gas price, gas estimation,
signature; the gas-estimation slot holds the caller-supplied paymaster
middleware exactly when the caller supplied one and the default estimator
exactly otherwise. -/
theorem c3_middleware_registration (env : InitEnv) (b : BuilderState)
    (hb : init env = Except.ok b) :
    b.middlewares =
      [MiddlewareTag.resolveAccount, MiddlewareTag.getGasPrice,
        (if env.hasPaymasterMw then MiddlewareTag.paymasterMiddleware
         else MiddlewareTag.estimateUserOperationGas),
        MiddlewareTag.eoaSignature] ∧
    b.middlewares.length = 4 ∧
    (MiddlewareTag.paymasterMiddleware ∈ b.middlewares ↔
      env.hasPaymasterMw = true) ∧
    (MiddlewareTag.estimateUserOperationGas ∈ b.middlewares ↔
      env.hasPaymasterMw = false) := by
  have h := init_ok_middlewares env b hb
  refine ⟨h, ?_, ?_, ?_⟩ <;> rw [h] <;>
    cases henv : env.hasPaymasterMw <;> simp [henv]

/-- Witness for C3 with the builder produced by `init envOk` (no paymaster
middleware supplied). -/
theorem c3_middleware_registration_witness :
    init envOk = Except.ok stateOk ∧
    (stateOk.middlewares =
      [MiddlewareTag.resolveAccount, MiddlewareTag.getGasPrice,
        (if envOk.hasPaymasterMw then MiddlewareTag.paymasterMiddleware
         else MiddlewareTag.estimateUserOperationGas),
        MiddlewareTag.eoaSignature] ∧
     stateOk.middlewares.length = 4 ∧
     (MiddlewareTag.paymasterMiddleware ∈ stateOk.middlewares ↔
       envOk.hasPaymasterMw = true) ∧
     (MiddlewareTag.estimateUserOperationGas ∈ stateOk.middlewares ↔
       envOk.hasPaymasterMw = false)) :=
  ⟨rfl, c3_middleware_registration envOk stateOk rfl⟩

/-! ### C5 -/

/-- C5: `executeBatch` over three arrays that do not all have equal length
fails with the encoder's length-mismatch error; no call data is produced or
stored on the operation-in-progress (no builder state is returned at
all). -/
theorem c5_execute_batch_length_mismatch (b : BuilderState)
    (dest : List String) (value : List Nat) (data : List String)
    (h : ¬ (dest.length = value.length ∧ value.length = data.length)) :
    executeBatch b dest value data =
      Except.error EncodeError.lengthMismatch := by
  simp [executeBatch, encodeExecuteBatch, h]

/-- Witness for C5: two targets, three values, three data items. -/
theorem c5_execute_batch_length_mismatch_witness :
    ¬ ((["0xa", "0xb"] : List String).length = ([1, 2, 3] : List Nat).length ∧
       ([1, 2, 3] : List Nat).length = (["0x", "0x", "0x"] : List String).length) ∧
    executeBatch stateOk ["0xa", "0xb"] [1, 2, 3] ["0x", "0x", "0x"] =
      Except.error EncodeError.lengthMismatch :=
  ⟨by decide,
   c5_execute_batch_length_mismatch stateOk ["0xa", "0xb"] [1, 2, 3]
     ["0x", "0x", "0x"] (by decide)⟩

/-! ### C7 -/

/-- C7: each of the four call-data setters mutates only the call-data field
of the operation-in-progress — the sender, nonce, init code, gas fields,
paymaster data and signature of the operation, and the instance's init code,
proxy address and registered middleware list, are all unchanged.  The
setters invoke only `setCallData`; no middleware is run. -/
theorem c7_setters_call_data_only (b : BuilderState) (dest : String)
    (value : Nat) (data : String) (config : MEVConfig) (destN : List String)
    (valueN : List Nat) (dataN : List String) :
    callDataFrame b (execute b dest value data) ∧
    callDataFrame b (boostExecute b config dest value data) ∧
    (∀ b2, executeBatch b destN valueN dataN = Except.ok b2 →
      callDataFrame b b2) ∧
    (∀ b2, boostExecuteBatch b config destN valueN dataN = Except.ok b2 →
      callDataFrame b b2) := by
  refine ⟨?_, ?_, ?_, ?_⟩
  · simp [execute, setCallData, callDataFrame]
  · simp [boostExecute, setCallData, callDataFrame]
  · intro b2 h
    unfold executeBatch at h
    cases he : encodeExecuteBatch destN valueN dataN with
    | error e => rw [he] at h; simp at h
    | ok cd =>
      rw [he] at h
      simp only [Except.ok.injEq] at h
      subst h
      simp [setCallData, callDataFrame]
  · intro b2 h
    unfold boostExecuteBatch at h
    cases he : encodeBoostExecuteBatch config destN valueN dataN with
    | error e => rw [he] at h; simp at h
    | ok cd =>
      rw [he] at h
      simp only [Except.ok.injEq] at h
      subst h
      simp [setCallData, callDataFrame]

/-- Witness for C7 at concrete arguments, the batch setters applied to
equal-length singleton arrays. -/
theorem c7_setters_call_data_only_witness :
    executeBatch stateOk ["0xa"] [1] ["0xd"] = Except.ok stateOkBatch ∧
    boostExecuteBatch stateOk ⟨"cfg"⟩ ["0xa"] [1] ["0xd"] =
      Except.ok stateOkBoostBatch ∧
    callDataFrame stateOk (execute stateOk "0xa" 1 "0xd") ∧
    callDataFrame stateOk stateOkBatch ∧
    callDataFrame stateOk stateOkBoostBatch :=
  ⟨rfl, rfl,
   (c7_setters_call_data_only stateOk "0xa" 1 "0xd" ⟨"cfg"⟩ ["0xa"] [1]
     ["0xd"]).1,
   (c7_setters_call_data_only stateOk "0xa" 1 "0xd" ⟨"cfg"⟩ ["0xa"] [1]
     ["0xd"]).2.2.1 stateOkBatch rfl,
   (c7_setters_call_data_only stateOk "0xa" 1 "0xd" ⟨"cfg"⟩ ["0xa"] [1]
     ["0xd"]).2.2.2 stateOkBoostBatch rfl⟩

/-! ### C8 -/

/-- C8: no public operation reassigns the resolved proxy address or the
computed init code — the four call-data setters, a full middleware pipeline
run and the settlement waiter all leave `initCode` and `proxyAddress` of the
builder exactly as initialization bound them. -/
theorem c8_write_once_core (b : BuilderState) (env : MwEnv) (wenv : WaitEnv)
    (hash : String) (dms : Option Nat) (fuel i : Nat) (dest : String)
    (value : Nat) (data : String) (config : MEVConfig) (destN : List String)
    (valueN : List Nat) (dataN : List String) :
    coreFrame b (execute b dest value data) ∧
    coreFrame b (boostExecute b config dest value data) ∧
    (∀ b2, executeBatch b destN valueN dataN = Except.ok b2 →
      coreFrame b b2) ∧
    (∀ b2, boostExecuteBatch b config destN valueN dataN = Except.ok b2 →
      coreFrame b b2) ∧
    coreFrame b (runPipeline b env) ∧
    (boostWaitM b wenv hash dms fuel i).2 = b := by
  refine ⟨?_, ?_, ?_, ?_, ?_, rfl⟩
  · simp [execute, setCallData, coreFrame]
  · simp [boostExecute, setCallData, coreFrame]
  · intro b2 h
    unfold executeBatch at h
    cases he : encodeExecuteBatch destN valueN dataN with
    | error e => rw [he] at h; simp at h
    | ok cd =>
      rw [he] at h
      simp only [Except.ok.injEq] at h
      subst h
      simp [setCallData, coreFrame]
  · intro b2 h
    unfold boostExecuteBatch at h
    cases he : encodeBoostExecuteBatch config destN valueN dataN with
    | error e => rw [he] at h; simp at h
    | ok cd =>
      rw [he] at h
      simp only [Except.ok.injEq] at h
      subst h
      simp [setCallData, coreFrame]
  · simp [runPipeline, coreFrame]

/-- Witness for C8 at concrete arguments. -/
theorem c8_write_once_core_witness :
    executeBatch stateOk ["0xa"] [1] ["0xd"] = Except.ok stateOkBatch ∧
    boostExecuteBatch stateOk ⟨"cfg"⟩ ["0xa"] [1] ["0xd"] =
      Except.ok stateOkBoostBatch ∧
    coreFrame stateOk (execute stateOk "0xa" 1 "0xd") ∧
    coreFrame stateOk stateOkBatch ∧
    coreFrame stateOk stateOkBoostBatch ∧
    coreFrame stateOk (runPipeline stateOk mwEnvW) ∧
    (boostWaitM stateOk envW "0xh" none 2 5000).2 = stateOk :=
  ⟨rfl, rfl,
   (c8_write_once_core stateOk mwEnvW envW "0xh" none 2 5000 "0xa" 1 "0xd"
     ⟨"cfg"⟩ ["0xa"] [1] ["0xd"]).1,
   (c8_write_once_core stateOk mwEnvW envW "0xh" none 2 5000 "0xa" 1 "0xd"
     ⟨"cfg"⟩ ["0xa"] [1] ["0xd"]).2.2.1 stateOkBatch rfl,
   (c8_write_once_core stateOk mwEnvW envW "0xh" none 2 5000 "0xa" 1 "0xd"
     ⟨"cfg"⟩ ["0xa"] [1] ["0xd"]).2.2.2.1 stateOkBoostBatch rfl,
   (c8_write_once_core stateOk mwEnvW envW "0xh" none 2 5000 "0xa" 1 "0xd"
     ⟨"cfg"⟩ ["0xa"] [1] ["0xd"]).2.2.2.2.1,
   (c8_write_once_core stateOk mwEnvW envW "0xh" none 2 5000 "0xa" 1 "0xd"
     ⟨"cfg"⟩ ["0xa"] [1] ["0xd"]).2.2.2.2.2⟩

/-- Every query the polling loop issues carries the operation hash as its
filter and starts the scan at `scanStart` of the captured head. -/
theorem boostWaitGo_queries (env : WaitEnv) (hash : String)
    (deadline interval : Nat) :
    ∀ fuel k, ∀ q ∈ (boostWaitGo env hash deadline interval fuel k).queries,
      q = ⟨hash, scanStart env.blockNumber⟩ := by
  intro fuel
  induction fuel with
  | zero =>
    intro k q hq
    simp [boostWaitGo] at hq
  | succ n ih =>
    intro k q hq
    unfold boostWaitGo at hq
    by_cases hlt : env.now k < deadline
    · rw [if_pos hlt] at hq
      cases hquery : env.query k with
      | nil =>
        rw [hquery] at hq
        simp at hq
        rcases hq with h | h
        · exact h
        · exact ih (k + 1) q h
      | cons e rest =>
        rw [hquery] at hq
        simp at hq
        exact hq
    · rw [if_neg hlt] at hq
      simp at hq

/-- Every sleep the polling loop performs lasts the poll interval. -/
theorem boostWaitGo_sleeps (env : WaitEnv) (hash : String)
    (deadline interval : Nat) :
    ∀ fuel k, ∀ s ∈ (boostWaitGo env hash deadline interval fuel k).sleeps,
      s = interval := by
  intro fuel
  induction fuel with
  | zero =>
    intro k s hs
    simp [boostWaitGo] at hs
  | succ n ih =>
    intro k s hs
    unfold boostWaitGo at hs
    by_cases hlt : env.now k < deadline
    · rw [if_pos hlt] at hs
      cases hquery : env.query k with
      | nil =>
        rw [hquery] at hs
        simp at hs
        rcases hs with h | h
        · exact h
        · exact ih (k + 1) s h
      | cons e rest =>
        rw [hquery] at hs
        simp at hs
    · rw [if_neg hlt] at hs
      simp at hs

/-- If the first poll at which the deadline has not yet elapsed and the log
answers a non-empty list is reached within the fuel bound, the loop returns
the head of that answer. -/
theorem boostWaitGo_finds (env : WaitEnv) (hash : String)
    (deadline interval : Nat) :
    ∀ fuel k m e rest, k ≤ m → m < k + fuel →
      (∀ j, k ≤ j → j < m → env.now j < deadline ∧ env.query j = []) →
      env.now m < deadline → env.query m = e :: rest →
      (boostWaitGo env hash deadline interval fuel k).result =
        some (some e) := by
  intro fuel
  induction fuel with
  | zero =>
    intro k m e rest hkm hm
    omega
  | succ n ih =>
    intro k m e rest hkm hm hempty hnow hquery
    unfold boostWaitGo
    rcases Nat.eq_or_lt_of_le hkm with heq | hlt
    · subst heq
      rw [if_pos hnow, hquery]
    · have hk := hempty k (Nat.le_refl k) hlt
      rw [if_pos hk.1, hk.2]
      exact ih (k + 1) m e rest hlt (by omega)
        (fun j hj1 hj2 => hempty j (by omega) hj2) hnow hquery

/-- If the first poll at which the deadline has elapsed is reached within
the fuel bound, all earlier polls answering nothing, the loop returns
`null`. -/
theorem boostWaitGo_elapses (env : WaitEnv) (hash : String)
    (deadline interval : Nat) :
    ∀ fuel k m, k ≤ m → m < k + fuel →
      (∀ j, k ≤ j → j < m → env.now j < deadline ∧ env.query j = []) →
      deadline ≤ env.now m →
      (boostWaitGo env hash deadline interval fuel k).result = some none := by
  intro fuel
  induction fuel with
  | zero =>
    intro k m hkm hm
    omega
  | succ n ih =>
    intro k m hkm hm hempty hnow
    unfold boostWaitGo
    rcases Nat.eq_or_lt_of_le hkm with heq | hlt
    · subst heq
      rw [if_neg (Nat.not_lt.mpr hnow)]
    · have hk := hempty k (Nat.le_refl k) hlt
      rw [if_pos hk.1, hk.2]
      exact ih (k + 1) m hlt (by omega)
        (fun j hj1 hj2 => hempty j (by omega) hj2) hnow

/-! ### C4 -/

/-- C4: one `boostWait` run captures the chain head once and polls the
settlement log: every issued query is filtered by the operation hash and
scans from `scanStart` (100 blocks behind the single captured head); every
sleep between queries lasts the poll interval; an omitted deadline defaults
to 30 seconds past the invocation-time clock and an omitted poll interval
defaults to 5 seconds; whenever the first poll with a non-empty, deadline-
respecting answer lies within the fuel bound the result is that answer's
first event, and whenever the deadline elapses first, all earlier polls
answering nothing, the result is `null` — a normal outcome, not an
error. -/
theorem c4_boost_wait_algorithm (env : WaitEnv) (hash : String)
    (dms : Option Nat) (i fuel : Nat) :
    (dms = none → effectiveDeadline env.now0 dms = env.now0 + 30000) ∧
    boostWait env hash dms fuel = boostWait env hash dms fuel 5000 ∧
    (∀ q ∈ (boostWait env hash dms fuel i).queries,
      q = ⟨hash, scanStart env.blockNumber⟩) ∧
    (∀ s ∈ (boostWait env hash dms fuel i).sleeps, s = i) ∧
    (∀ m e rest, m < fuel →
      (∀ j, j < m →
        env.now j < effectiveDeadline env.now0 dms ∧ env.query j = []) →
      env.now m < effectiveDeadline env.now0 dms →
      env.query m = e :: rest →
      (boostWait env hash dms fuel i).result = some (some e)) ∧
    (∀ m, m < fuel →
      (∀ j, j < m →
        env.now j < effectiveDeadline env.now0 dms ∧ env.query j = []) →
      effectiveDeadline env.now0 dms ≤ env.now m →
      (boostWait env hash dms fuel i).result = some none) := by
  refine ⟨?_, rfl, ?_, ?_, ?_, ?_⟩
  · intro h
    subst h
    rfl
  · exact boostWaitGo_queries env hash _ i fuel 0
  · exact boostWaitGo_sleeps env hash _ i fuel 0
  · intro m e rest hm hempty hnow hquery
    exact boostWaitGo_finds env hash _ i fuel 0 m e rest (Nat.zero_le m)
      (by omega) (fun j _ hj2 => hempty j hj2) hnow hquery
  · intro m hm hempty hnow
    exact boostWaitGo_elapses env hash _ i fuel 0 m (Nat.zero_le m)
      (by omega) (fun j _ hj2 => hempty j hj2) hnow

/-- Witness for C4: over `envW` the first poll answers `[evW]`, so the
defaulted call returns that event. -/
theorem c4_boost_wait_algorithm_witness :
    (boostWait envW "0xh" none 2).result = some (some evW) :=
  (c4_boost_wait_algorithm envW "0xh" none 5000 2).2.2.2.2.1 0 evW []
    (by decide) (fun j hj => absurd hj (Nat.not_lt_zero j)) (by decide) rfl

/-! ### C6 -/

/-- C6: a `boostWait` call with a positive absolute deadline at or before
the invocation-time clock returns `null` immediately, issuing no query of
the settlement event log and performing no sleep. -/
theorem c6_boost_wait_past_deadline (env : WaitEnv) (hash : String)
    (d i fuel : Nat) (hd : 0 < d) (hpast : d ≤ env.now 0)
    (hfuel : 0 < fuel) :
    boostWait env hash (some d) fuel i = ⟨some none, [], []⟩ := by
  cases fuel with
  | zero => exact absurd hfuel (by simp)
  | succ n =>
    have hd0 : ¬ d = 0 := Nat.pos_iff_ne_zero.mp hd
    have hE : effectiveDeadline env.now0 (some d) = d := by
      simp [effectiveDeadline, hd0]
    unfold boostWait
    rw [hE]
    unfold boostWaitGo
    rw [if_neg (Nat.not_lt.mpr hpast)]

/-- Witness for C6: deadline 50 against a clock standing at 1000. -/
theorem c6_boost_wait_past_deadline_witness :
    boostWait envW "0xh" (some 50) 2 = ⟨some none, [], []⟩ :=
  c6_boost_wait_past_deadline envW "0xh" 50 5000 2 (by decide) (by decide)
    (by decide)

/-! ### C9 -/

/-- C9: a `boostWait` deadline argument equal to zero is falsy and is
treated exactly as an absent deadline: the default of 30 seconds past the
invocation-time clock is substituted, so the whole run coincides with the
default-deadline run instead of returning `null` immediately. -/
theorem c9_zero_deadline_default (env : WaitEnv) (hash : String)
    (fuel i : Nat) :
    boostWait env hash (some 0) fuel i = boostWait env hash none fuel i ∧
    effectiveDeadline env.now0 (some 0) = env.now0 + 30000 := by
  exact ⟨rfl, rfl⟩

/-! ### C10 -/

/-- C10: every query of a `boostWait` run starts its scan at
`max 0 (head - 100)`, which is never negative; in particular a head within
the first 100 blocks yields a scan start of exactly block 0. -/
theorem c10_scan_start_clamped (env : WaitEnv) (hash : String)
    (dms : Option Nat) (fuel i : Nat) :
    (∀ q ∈ (boostWait env hash dms fuel i).queries,
      q.fromBlock = max 0 ((env.blockNumber : Int) - 100) ∧
      0 ≤ q.fromBlock) ∧
    (env.blockNumber ≤ 100 → scanStart env.blockNumber = 0) := by
  constructor
  · intro q hq
    have h := boostWaitGo_queries env hash _ i fuel 0 q hq
    rw [h]
    exact ⟨rfl, le_max_left 0 _⟩
  · intro h
    unfold scanStart
    rw [max_eq_left]
    omega

/-- Witness for C10: the single query of the run over `envW` (head block 5)
starts at block 0. -/
theorem c10_scan_start_clamped_witness :
    (⟨"0xh", 0⟩ : QueryCall) ∈ (boostWait envW "0xh" none 2).queries ∧
    ((⟨"0xh", 0⟩ : QueryCall).fromBlock =
        max 0 ((envW.blockNumber : Int) - 100) ∧
      0 ≤ (⟨"0xh", 0⟩ : QueryCall).fromBlock) ∧
    scanStart envW.blockNumber = 0 :=
  ⟨by decide,
   (c10_scan_start_clamped envW "0xh" none 2 5000).1 ⟨"0xh", 0⟩ (by decide),
   (c10_scan_start_clamped envW "0xh" none 2 5000).2 (by decide)⟩
